import Mathlib

/-
Verification of the LocalChatInterface repository: a shallow embedding of the
chat store, settings store, streaming relay, and client session controller,
with theorems settling the behavioural claims about them.

Sources embedded:
  server.js            express server: chat store, settings store, simulated SSE relay
  public/script.js     main browser client: session controller
  unnamed/part_000     legacy client variant
  unnamed/part_001     alternate client with an SSE stream reader
-/

namespace LocalChat

/-- A chat message as built by the clients (addMessageToChat): an id, a role
string, the content text and an ISO timestamp string. -/
structure Msg where
  id : String
  role : String
  content : String
  timestamp : String
deriving DecidableEq, Repr

/-- A conversation document as written to disk by POST /api/chats
(server.js lines 129-153). -/
structure ChatData where
  id : String
  title : String
  timestamp : String
  messages : List Msg
deriving DecidableEq, Repr

/-- Contents of a file in the chats directory: either a well-formed
conversation document, or text that is not valid JSON. -/
inductive FileContent where
  | conv (c : ChatData)
  | corrupt
deriving DecidableEq, Repr

/-- The state of the data/chats directory: file names associated to contents. -/
abbrev ChatsDir := List (String × FileContent)

/-- An HTTP-level outcome: a JSON payload, or an error status with a message.
The error case also stands for a handler that aborts without responding. -/
inductive ApiResult (α : Type) where
  | ok (a : α)
  | err (status : Nat) (message : String)
deriving DecidableEq, Repr

/-- Look a file up by name. -/
def dirLookup : ChatsDir → String → Option FileContent
  | [], _ => none
  | (n, c) :: rest, name => if n = name then some c else dirLookup rest name

/-- Overwrite a file, creating it when absent (fs.writeFile semantics). -/
def dirWrite : ChatsDir → String → FileContent → ChatsDir
  | [], name, c => [(name, c)]
  | (n, c0) :: rest, name, c =>
      if n = name then (n, c) :: rest else (n, c0) :: dirWrite rest name c

/-- Remove a file by name (fs.unlink on an existing file). -/
def dirRemove : ChatsDir → String → ChatsDir
  | [], _ => []
  | (n, c) :: rest, name => if n = name then rest else (n, c) :: dirRemove rest name

/-- JavaScript String.prototype.trim: remove whitespace from both ends of
the string. -/
def jsTrim (s : String) : String :=
  String.mk ((s.data.dropWhile Char.isWhitespace).reverse.dropWhile Char.isWhitespace).reverse

/-- JavaScript String.prototype.endsWith: the second string is a suffix of
the first. -/
def jsEndsWith (s sfx : String) : Bool := sfx.data.isSuffixOf s.data

/-- Lexicographic strict order on character lists. -/
def charListLt : List Char → List Char → Bool
  | [], [] => false
  | [], _ :: _ => true
  | _ :: _, [] => false
  | a :: as, b :: bs => if a < b then true else if b < a then false else charListLt as bs

/-- Lexicographic strict order on strings. On the ISO-8601 timestamp
strings the server writes, this coincides with the chronological order the
comparator new Date(b) - new Date(a) of server.js line 123 induces. -/
def strLt (a b : String) : Bool := charListLt a.data b.data

/-- JavaScript truthiness test for an optional string request field:
undefined and the empty string are falsy. -/
def strFalsy : Option String → Bool
  | none => true
  | some s => s == ""

/-- JavaScript s or-else d for strings: d when s is empty, s otherwise. -/
def jsOr (s d : String) : String := if s = "" then d else s

/-- The body of POST /api/chats as destructured by the server: the three
fields it reads, each possibly absent. -/
structure SaveBody where
  id : Option String
  title : Option String
  messages : Option (List Msg)
deriving DecidableEq, Repr

/-- POST /api/chats (server.js lines 129-153): reject when id, title or
messages is missing (or a falsy string), otherwise build the conversation
document with a fresh server timestamp (new Date().toISOString(), the
argument now) and overwrite the file named id.json. Returns the updated
directory and the HTTP outcome. -/
def postChat (dir : ChatsDir) (now : String) (body : SaveBody) :
    ChatsDir × ApiResult String :=
  if strFalsy body.id || strFalsy body.title || body.messages.isNone then
    (dir, ApiResult.err 400 "Missing required fields")
  else
    let id := body.id.getD ""
    let chatData : ChatData :=
      { id := id, title := body.title.getD "", timestamp := now,
        messages := body.messages.getD [] }
    (dirWrite dir (id ++ ".json") (FileContent.conv chatData), ApiResult.ok id)

/-- DELETE /api/chats/:id (server.js lines 155-164): fs.unlink on id.json;
any unlink error, including the file not existing, makes the handler
respond with status 500. -/
def deleteChat (dir : ChatsDir) (id : String) : ChatsDir × ApiResult Unit :=
  match dirLookup dir (id ++ ".json") with
  | none => (dir, ApiResult.err 500 "Failed to delete chat")
  | some _ => (dirRemove dir (id ++ ".json"), ApiResult.ok ())

/-- A conversation summary as produced by GET /api/chats. -/
structure ChatSummary where
  id : String
  title : String
  timestamp : String
deriving DecidableEq, Repr

/-- The map callback of GET /api/chats applied to each .json file in order:
JSON.parse of a corrupt file throws, which aborts the whole map (there is no
try/catch around it), so the result is none as soon as one corrupt file is
met; otherwise every file yields a summary. -/
def collectSummaries : List (String × FileContent) → Option (List ChatSummary)
  | [] => some []
  | (_, FileContent.corrupt) :: _ => none
  | (name, FileContent.conv c) :: rest =>
      (collectSummaries rest).map
        (fun l =>
          { id := name.dropRight 5, title := jsOr c.title "Untitled Chat",
            timestamp := c.timestamp } :: l)

/-- Insert a summary before the first strictly older one (descending order
by timestamp; the server timestamps are ISO-8601 strings, for which the
lexicographic order used here coincides with the chronological order the
comparator new Date(b) - new Date(a) induces). -/
def insertByTsDesc (s : ChatSummary) : List ChatSummary → List ChatSummary
  | [] => [s]
  | t :: rest =>
      if strLt t.timestamp s.timestamp then s :: t :: rest else t :: insertByTsDesc s rest

/-- Sort summaries by timestamp descending (Array.prototype.sort with the
comparator of server.js line 123; stable, like the modern runtime sort). -/
def sortByTsDesc : List ChatSummary → List ChatSummary
  | [] => []
  | s :: rest => insertByTsDesc s (sortByTsDesc rest)

/-- GET /api/chats (server.js lines 106-127): filter the directory to .json
files, parse each and build its summary, then sort by timestamp descending.
A corrupt file makes JSON.parse throw with no handler, so the request
produces no listing at all; that aborted outcome is the err case. -/
def listChats (dir : ChatsDir) : ApiResult (List ChatSummary) :=
  match collectSummaries (dir.filter (fun f => jsEndsWith f.1 ".json")) with
  | none => ApiResult.err 500 "Unexpected token in JSON"
  | some summaries => ApiResult.ok (sortByTsDesc summaries)

/-- Modelled from the spec: the route GET /api/chats/:id is absent from
server.js (only its caller, loadChat in public/script.js, exists). Per the
spec it returns the full Conversation stored for the id, or 404 when no
conversation file for that id exists. -/
def getChat (dir : ChatsDir) (id : String) : ApiResult ChatData :=
  match dirLookup dir (id ++ ".json") with
  | some (FileContent.conv c) => ApiResult.ok c
  | _ => ApiResult.err 404 "Not found"

/-- The Settings document (server.js defaultSettings shape). The two
sampling parameters are JSON decimal literals, represented exactly as
rationals. -/
structure Settings where
  apiEndpoint : String
  model : String
  temperature : ℚ
  maxTokens : ℕ
  topP : ℚ
deriving DecidableEq, Repr

/-- The documented default settings (server.js lines 36-42). -/
def defaultSettings : Settings :=
  { apiEndpoint := "http://localhost:1234/v1", model := "gpt-3.5-turbo",
    temperature := 7/10, maxTokens := 2048, topP := 9/10 }

/-- Server startup initialization (server.js lines 53-57): when
data/settings.json does not exist, write the default settings to it. The
state is the contents of the settings file, none when absent. -/
def initSettingsFile : Option Settings → Option Settings
  | none => some defaultSettings
  | some s => some s

/-- GET /api/settings (server.js lines 166-173): read and parse the
settings file; a read error (file absent) yields status 500. -/
def getSettings : Option Settings → ApiResult Settings
  | none => ApiResult.err 500 "Failed to read settings"
  | some s => ApiResult.ok s

/-- The fixed string the simulated relay produces (server.js line 91). -/
def simulatedResponse : String :=
  "This is a simulated response from your local LLM. In a real implementation, this would connect to your local AI model like Ollama, LocalAI, or any OpenAI-compatible endpoint."

/-- One server-sent event of POST /api/chat: a data event carrying a content
string, or the terminal [DONE] sentinel. -/
inductive SseEvent where
  | content (s : String)
  | done
deriving DecidableEq, Repr

/-- The interval loop of POST /api/chat (server.js lines 91-103), from the
current index to the end of the response: while characters remain it emits
one data event carrying the single character at the index, advancing the
index by one, and once the index reaches the length it emits [DONE] and
closes the stream. -/
def emitFrom : List Char → List SseEvent
  | [] => [SseEvent.done]
  | c :: rest => SseEvent.content (String.mk [c]) :: emitFrom rest

/-- The full event sequence POST /api/chat writes for one request. -/
def chatStreamEvents : List SseEvent := emitFrom simulatedResponse.data

/-- The contents of the data events that precede the first [DONE] sentinel:
what a client receives before the terminal sentinel. -/
def contentsBeforeDone : List SseEvent → List String
  | [] => []
  | SseEvent.done :: _ => []
  | SseEvent.content s :: rest => s :: contentsBeforeDone rest

/-- Concatenation of a list of strings in order. -/
def concatAll : List String → String
  | [] => ""
  | s :: rest => s ++ concatAll rest

/-- The payload of one SSE data line as the client of unnamed/part_001 sees
it after JSON.parse: the literal [DONE] sentinel, a parsed chunk whose
optional delta is choices[0]?.delta?.content, or text JSON.parse rejects
(warned and skipped). -/
inductive SseData where
  | done
  | chunk (delta : Option String)
  | malformed
deriving DecidableEq, Repr

/-- One complete line of the response body: a line starting with the data
marker and carrying a payload, or any other line, which is ignored. -/
inductive SseLine where
  | data (d : SseData)
  | other
deriving DecidableEq, Repr

/-- The line loop of streamChatCompletion (unnamed/part_001 lines 196-218)
over the complete lines in arrival order, with fullResponse as accumulator:
a [DONE] payload returns immediately with the accumulated text; a chunk
whose delta is present and non-empty (JavaScript truthiness) is appended to
the accumulator; malformed payloads, absent or empty deltas and other lines
are skipped. -/
def readLines : List SseLine → String → String
  | [], acc => acc
  | SseLine.other :: rest, acc => readLines rest acc
  | SseLine.data SseData.done :: _, acc => acc
  | SseLine.data SseData.malformed :: rest, acc => readLines rest acc
  | SseLine.data (SseData.chunk none) :: rest, acc => readLines rest acc
  | SseLine.data (SseData.chunk (some d)) :: rest, acc =>
      if d = "" then readLines rest acc else readLines rest (acc ++ d)

/-- A message as sent to the relay: the role and content projection built
by sendMessage (public/script.js lines 233-237). -/
structure ApiMsg where
  role : String
  content : String
deriving DecidableEq, Repr

/-- The projection applied to each in-memory message when building the
relay payload. -/
def toApiMsg (m : Msg) : ApiMsg := { role := m.role, content := m.content }

/-- JavaScript messageId or-else a default: undefined and the empty string
fall back to the default. -/
def jsOrOpt (m : Option String) (d : String) : String :=
  match m with
  | none => d
  | some s => if s = "" then d else s

/-- addMessageToChat (public/script.js lines 368-430, same list logic in
unnamed/part_000 lines 198-255): append a message whose id is the given
messageId or, when absent, msg- followed by the current clock value, with
the current time as timestamp. -/
def addMessageToChat (msgs : List Msg) (role content : String)
    (messageId : Option String) (now : String) : List Msg :=
  msgs ++ [{ id := jsOrOpt messageId ("msg-" ++ now), role := role,
             content := content, timestamp := now }]

/-- The outcome of sendMessage that matters to the session: the updated
in-memory list and the payload sent to the relay, none when nothing was
sent. -/
structure SendResult where
  messages : List Msg
  payload : Option (List ApiMsg)
deriving DecidableEq, Repr

/-- sendMessage (public/script.js lines 204-246), up to the request being
sent: trim the input; bail out when it is empty or a generation is already
running; otherwise append the user message to the in-memory list via
addMessageToChat, then build apiMessages by mapping the current list (which
already contains the appended user message) to role-content pairs and
pushing one more user entry with the same content. -/
def sendMessage (msgs : List Msg) (isGenerating : Bool) (input : String)
    (now : String) : SendResult :=
  let message := jsTrim input
  if message = "" || isGenerating then
    { messages := msgs, payload := none }
  else
    let msgs2 := addMessageToChat msgs "user" message none now
    let apiMessages := msgs2.map toApiMsg ++ [{ role := "user", content := message }]
    { messages := msgs2, payload := some apiMessages }

/-- The outcome of regenerateResponse: the updated list, the relay payload
when one was sent, and the user-visible notices the call produced. -/
structure RegenResult where
  messages : List Msg
  payload : Option (List ApiMsg)
  notices : List String
deriving DecidableEq, Repr

/-- regenerateResponse (public/script.js lines 491-514): bail out while
generating; find the target message by id; bail out when it is absent or
first (messageIndex less than or equal to zero) or when the preceding
message does not have role user; otherwise truncate the list to the strict
prefix before the target, put the preceding user content into the input box
and call sendMessage. Every bail-out path is a bare return: no path of the
function produces a user-visible notice, so notices is always empty. -/
def regenerateResponse (msgs : List Msg) (isGenerating : Bool)
    (targetId : String) (now : String) : RegenResult :=
  if isGenerating then { messages := msgs, payload := none, notices := [] }
  else
    match msgs.findIdx? (fun m => m.id = targetId) with
    | none => { messages := msgs, payload := none, notices := [] }
    | some i =>
      if i = 0 then { messages := msgs, payload := none, notices := [] }
      else
        match msgs[i-1]? with
        | none => { messages := msgs, payload := none, notices := [] }
        | some prev =>
          if prev.role ≠ "user" then
            { messages := msgs, payload := none, notices := [] }
          else
            let r := sendMessage (msgs.take i) false prev.content now
            { messages := r.messages, payload := r.payload, notices := [] }

/-- The canned text of the legacy regenerate (unnamed/part_000 line 314). -/
def regeneratedCanned : String :=
  "This is a regenerated response. In a real implementation, this would connect to your local LLM to generate a new response based on the conversation history."

/-- regenerateResponse in the legacy client (unnamed/part_000 lines
311-346): without checking any precondition on the preceding message, it
overwrites the content of the target message with the canned string and
triggers a save. -/
def regenerateResponseLegacy (msgs : List Msg) (targetId : String) : List Msg :=
  match msgs.findIdx? (fun m => m.id = targetId) with
  | none => msgs
  | some i =>
    match msgs[i]? with
    | none => msgs
    | some m => msgs.set i { m with content := regeneratedCanned }

/-- saveEditedMessage (public/script.js lines 445-488): replace the content
of the first message whose id matches, leaving its id, role and timestamp
and every other message unchanged; when no message matches, the list is
unchanged. A save is triggered afterwards in both cases. -/
def saveEditedMessage (msgs : List Msg) (targetId newContent : String) : List Msg :=
  match msgs.findIdx? (fun m => m.id = targetId) with
  | none => msgs
  | some i =>
    match msgs[i]? with
    | none => msgs
    | some m => msgs.set i { m with content := newContent }

/-- saveCurrentChat (public/script.js lines 529-557, identically guarded in
unnamed/part_000 lines 361-368): when the current chat id is falsy (null or
empty) or the in-memory message list is empty, return without issuing any
request; otherwise build the POST /api/chats body carrying the id, the
title (chatTitle text or-else New Chat) and the entire message list. The
result is the request body sent, none when no request is made. -/
def saveCurrentChat (currentChatId : Option String) (title : String)
    (msgs : List Msg) : Option SaveBody :=
  if strFalsy currentChatId || msgs.length == 0 then none
  else
    some { id := some (currentChatId.getD ""),
           title := some (jsOr title "New Chat"),
           messages := some msgs }

/-- loadChat in the legacy client (unnamed/part_000 lines 441-463): it does
not contact the server; it resets the list and appends two sample messages
through addMessageToChat with no explicit ids, so both ids come from the
clock readings at the two calls. -/
def loadChatLegacy (now1 now2 : String) : List Msg :=
  addMessageToChat
    (addMessageToChat [] "user" "Hello, can you help me with something?" none now1)
    "assistant" "Of course! I\x27m here to help. What do you need assistance with?"
    none now2

/-
Helper lemmas shared by the claim theorems.
-/

/-- Writing a file and looking it up under the same name yields the written
content. -/
theorem dirLookup_dirWrite (dir : ChatsDir) (name : String) (c : FileContent) :
    dirLookup (dirWrite dir name c) name = some c := by
  induction dir with
  | nil => simp [dirWrite, dirLookup]
  | cons hd tl ih =>
    obtain ⟨n, c0⟩ := hd
    by_cases h : n = name
    · simp [dirWrite, h, dirLookup]
    · simp [dirWrite, h, dirLookup, ih]

/-- The relay loop emits exactly one content event per character, in list
order, followed by the sentinel. -/
theorem emitFrom_eq (l : List Char) :
    emitFrom l = l.map (fun c => SseEvent.content (String.mk [c])) ++ [SseEvent.done] := by
  induction l with
  | nil => rfl
  | cons c rest ih => simp [emitFrom, ih]

/-- The contents received before the sentinel of a content-events-then-done
stream are exactly the emitted contents. -/
theorem contentsBeforeDone_map (l : List Char) :
    contentsBeforeDone (l.map (fun c => SseEvent.content (String.mk [c])) ++ [SseEvent.done])
      = l.map (fun c => String.mk [c]) := by
  induction l with
  | nil => rfl
  | cons c rest ih => simp [contentsBeforeDone, ih]

/-- Concatenating the single-character strings of a character list
reassembles the string over that list. -/
theorem concatAll_singletons (l : List Char) :
    concatAll (l.map (fun c => String.mk [c])) = String.mk l := by
  induction l with
  | nil => rfl
  | cons c rest ih =>
    show String.mk [c] ++ concatAll (rest.map (fun c => String.mk [c])) = String.mk (c :: rest)
    rw [ih]
    rfl

/-- The stream reader, fed the data lines of a list of deltas followed by
the sentinel and anything after it, accumulates the deltas onto the
accumulator in arrival order. -/
theorem readLines_deltas (deltas : List String) (rest : List SseLine) (acc : String) :
    readLines (deltas.map (fun d => SseLine.data (SseData.chunk (some d)))
        ++ SseLine.data SseData.done :: rest) acc
      = acc ++ concatAll deltas := by
  induction deltas generalizing acc with
  | nil =>
    show readLines (SseLine.data SseData.done :: rest) acc = acc ++ ""
    rw [readLines]
    exact (String.append_empty acc).symm
  | cons d ds ih =>
    by_cases h : d = ""
    · subst h
      show readLines (SseLine.data (SseData.chunk (some "")) :: _) acc = _
      rw [readLines, if_pos rfl]
      have h2 : acc ++ concatAll ("" :: ds) = acc ++ concatAll ds := rfl
      rw [h2]
      exact ih acc
    · show readLines (SseLine.data (SseData.chunk (some d)) :: _) acc = _
      rw [readLines, if_neg h]
      have h2 : acc ++ concatAll (d :: ds) = acc ++ d ++ concatAll ds := by
        show acc ++ (d ++ concatAll ds) = acc ++ d ++ concatAll ds
        rw [String.append_assoc]
      rw [h2]
      exact ih (acc ++ d)

/-- The or-else of a non-empty default is never empty. -/
theorem jsOr_ne_empty (s d : String) (hd : d ≠ "") : jsOr s d ≠ "" := by
  unfold jsOr
  by_cases h : s = ""
  · simpa [h] using hd
  · simp [h]

/-
Claim theorems.
-/

/-- Claim C1, as stated, is false at a concrete input: a conversation with
timestamp t0 saved at server time t1 loads with timestamp t1, so the loaded
value is not field-for-field equal to the saved one. -/
theorem c1_timestamp_counterexample :
    getChat (postChat [] "t1"
        { id := some "c1", title := some "T",
          messages := some [{ id := "m1", role := "user", content := "Hi", timestamp := "t0" }] }).1 "c1"
      ≠ ApiResult.ok
          { id := "c1", title := "T", timestamp := "t0",
            messages := [{ id := "m1", role := "user", content := "Hi", timestamp := "t0" }] } := by
  decide

/-- Claim C1, amended: a Conversation saved via POST /api/chats and loaded
by its id equals the saved one on id, title and messages, with message
order preserved, but with the timestamp field replaced by the server save
time; loading an id with no conversation file yields NotFound (404). -/
theorem c1_roundtrip_amended (dir : ChatsDir) (c : ChatData) (now : String)
    (hid : c.id ≠ "") (htitle : c.title ≠ "") :
    getChat (postChat dir now
        { id := some c.id, title := some c.title, messages := some c.messages }).1 c.id
        = ApiResult.ok { id := c.id, title := c.title, timestamp := now, messages := c.messages }
      ∧ ∀ (dir2 : ChatsDir) (id2 : String), dirLookup dir2 (id2 ++ ".json") = none →
          getChat dir2 id2 = ApiResult.err 404 "Not found" := by
  constructor
  · simp [postChat, strFalsy, hid, htitle, getChat, dirLookup_dirWrite]
  · intro dir2 id2 h
    simp [getChat, h]

/-- Witness for the amended C1 at a concrete conversation and store. -/
theorem c1_roundtrip_amended_witness :
    getChat (postChat [] "t1"
        { id := some "c9", title := some "T",
          messages := some [{ id := "m1", role := "user", content := "Hi", timestamp := "t0" }] }).1 "c9"
        = ApiResult.ok
            { id := "c9", title := "T", timestamp := "t1",
              messages := [{ id := "m1", role := "user", content := "Hi", timestamp := "t0" }] }
      ∧ getChat [] "nope" = ApiResult.err 404 "Not found" :=
  ⟨(c1_roundtrip_amended []
      { id := "c9", title := "T", timestamp := "t0",
        messages := [{ id := "m1", role := "user", content := "Hi", timestamp := "t0" }] }
      "t1" (by decide) (by decide)).1,
   (c1_roundtrip_amended []
      { id := "c9", title := "T", timestamp := "t0",
        messages := [{ id := "m1", role := "user", content := "Hi", timestamp := "t0" }] }
      "t1" (by decide) (by decide)).2 [] "nope" (by decide)⟩

/-- Claim C2: the simulated relay of POST /api/chat emits one chunk per
character of its fixed response string, in index order, before the terminal
[DONE] sentinel, so the concatenation of the chunk contents received before
the sentinel is exactly that string, with no gaps or duplicates; and the
stream reader of streamChatCompletion appends each received delta in
arrival order, so on any delivered delta sequence terminated by the
sentinel it accumulates exactly the concatenation of the deltas. -/
theorem c2_streaming_completeness :
    contentsBeforeDone chatStreamEvents
        = simulatedResponse.data.map (fun c => String.mk [c])
      ∧ concatAll (contentsBeforeDone chatStreamEvents) = simulatedResponse
      ∧ ∀ (deltas : List String) (rest : List SseLine),
          readLines (deltas.map (fun d => SseLine.data (SseData.chunk (some d)))
              ++ SseLine.data SseData.done :: rest) ""
            = concatAll deltas := by
  have h1 : contentsBeforeDone chatStreamEvents
      = simulatedResponse.data.map (fun c => String.mk [c]) := by
    rw [chatStreamEvents, emitFrom_eq, contentsBeforeDone_map]
  refine ⟨h1, ?_, ?_⟩
  · rw [h1, concatAll_singletons]
  · intro deltas rest
    rw [readLines_deltas]
    rfl

/-- Claim C3 is refuted by the code: DELETE /api/chats/:id responds with a
500 error when no conversation file for the id exists, both on an empty
store and again after a successful delete, so delete is not idempotent and
NotFound is surfaced as an error. -/
theorem c3_delete_nonexistent_errors :
    deleteChat [] "c1" = ([], ApiResult.err 500 "Failed to delete chat")
      ∧ (deleteChat [("c1.json",
            FileContent.conv { id := "c1", title := "T", timestamp := "t", messages := [] })]
          "c1").2 = ApiResult.ok ()
      ∧ (deleteChat (deleteChat [("c1.json",
            FileContent.conv { id := "c1", title := "T", timestamp := "t", messages := [] })]
          "c1").1 "c1").2 = ApiResult.err 500 "Failed to delete chat" := by
  decide

/-- Claim C4 is refuted by the code: with one valid conversation file and
one corrupt file in the chats directory, GET /api/chats produces no listing
at all (JSON.parse throws inside the handler, which has no try/catch),
instead of returning the valid summaries, although the same directory
without the corrupt file lists fine. -/
theorem c4_listing_aborts_on_corrupt :
    listChats [("a.json",
          FileContent.conv { id := "a", title := "A", timestamp := "2", messages := [] }),
        ("b.json", FileContent.corrupt)]
        = ApiResult.err 500 "Unexpected token in JSON"
      ∧ listChats [("a.json",
          FileContent.conv { id := "a", title := "A", timestamp := "2", messages := [] })]
        = ApiResult.ok [{ id := "a", title := "A", timestamp := "2" }] := by
  decide

/-- Claim C5, as stated, is false at a concrete input: regenerating the
assistant message of a user-assistant history sends three user entries to
the relay, not the one-message prefix before the target. -/
theorem c5_payload_counterexample :
    (regenerateResponse
        [{ id := "m1", role := "user", content := "Hi", timestamp := "t1" },
         { id := "m2", role := "assistant", content := "A", timestamp := "t2" }]
        false "m2" "9").payload
      ≠ some (([{ id := "m1", role := "user", content := "Hi", timestamp := "t1" }] : List Msg).map
          toApiMsg) := by
  decide

/-- Claim C5, amended: when the regenerate target is at index i with a user
message immediately before it (whose trimmed content is non-empty) and no
generation is running, the payload sent to the relay is the role-content
projection of the prefix before index i followed by two further user
entries carrying the trimmed content of that preceding user message, one
because sendMessage re-appends the user turn to the in-memory list before
mapping it and one because it pushes the same entry onto the payload
again. -/
theorem c5_regenerate_payload_amended (msgs : List Msg) (i : Nat)
    (targetId now : String) (prev : Msg)
    (hfind : msgs.findIdx? (fun m => m.id = targetId) = some i)
    (hi : i ≠ 0) (hprev : msgs[i-1]? = some prev)
    (hrole : prev.role = "user") (htrim : jsTrim prev.content ≠ "") :
    (regenerateResponse msgs false targetId now).payload
      = some ((msgs.take i).map toApiMsg
          ++ [{ role := "user", content := jsTrim prev.content },
              { role := "user", content := jsTrim prev.content }]) := by
  simp only [regenerateResponse, Bool.false_eq_true, if_false, hfind, if_neg hi, hprev,
    hrole, ne_eq, not_true_eq_false]
  simp [sendMessage, htrim, addMessageToChat, toApiMsg, jsOrOpt]

/-- Witness for the amended C5 at a concrete history. -/
theorem c5_regenerate_payload_amended_witness :
    (regenerateResponse
        [{ id := "m1", role := "user", content := "Hi", timestamp := "t1" },
         { id := "m2", role := "assistant", content := "A", timestamp := "t2" }]
        false "m2" "9").payload
      = some ((([{ id := "m1", role := "user", content := "Hi", timestamp := "t1" },
                 { id := "m2", role := "assistant", content := "A", timestamp := "t2" }] : List Msg).take 1).map
            toApiMsg
          ++ [{ role := "user", content := jsTrim "Hi" },
              { role := "user", content := jsTrim "Hi" }]) :=
  c5_regenerate_payload_amended
    [{ id := "m1", role := "user", content := "Hi", timestamp := "t1" },
     { id := "m2", role := "assistant", content := "A", timestamp := "t2" }]
    1 "m2" "9" { id := "m1", role := "user", content := "Hi", timestamp := "t1" }
    (by decide) (by decide) (by decide) (by decide) (by decide)

/-- Claim C6, as stated, is false at concrete inputs: in the main client,
regenerating an assistant message preceded by another assistant message
leaves everything unchanged but produces no user-visible notice (every
guard is a bare return); and in the legacy client the same call is not a
no-op at all, it overwrites the target content unconditionally. -/
theorem c6_silent_noop_counterexample :
    (regenerateResponse
        [{ id := "a1", role := "assistant", content := "X", timestamp := "t" },
         { id := "a2", role := "assistant", content := "Y", timestamp := "t" }]
        false "a2" "9").notices = []
      ∧ regenerateResponseLegacy
          [{ id := "a1", role := "assistant", content := "X", timestamp := "t" },
           { id := "a2", role := "assistant", content := "Y", timestamp := "t" }] "a2"
        ≠ [{ id := "a1", role := "assistant", content := "X", timestamp := "t" },
           { id := "a2", role := "assistant", content := "Y", timestamp := "t" }] := by
  decide

/-- Claim C6, amended: in the main client an invalid regenerate target
(the target message is first, or the message before it does not have role
user) makes regenerateResponse a silent no-op: the in-memory list is
unchanged, no request is sent (so nothing is persisted), nothing crashes,
and no user-visible notice is produced. -/
theorem c6_invalid_regenerate_amended (msgs : List Msg) (i : Nat)
    (targetId now : String)
    (hfind : msgs.findIdx? (fun m => m.id = targetId) = some i)
    (hbad : i = 0 ∨ ∃ prev, msgs[i-1]? = some prev ∧ prev.role ≠ "user") :
    regenerateResponse msgs false targetId now
      = { messages := msgs, payload := none, notices := [] } := by
  simp only [regenerateResponse, Bool.false_eq_true, if_false, hfind]
  by_cases h0 : i = 0
  · simp [h0]
  · rcases hbad with h0x | ⟨prev, hp, hr⟩
    · exact absurd h0x h0
    · simp [h0, hp, hr]

/-- Witness for the amended C6 at a concrete history. -/
theorem c6_invalid_regenerate_amended_witness :
    regenerateResponse
        [{ id := "a1", role := "assistant", content := "X", timestamp := "t" },
         { id := "a2", role := "assistant", content := "Y", timestamp := "t" }]
        false "a2" "9"
      = { messages := [{ id := "a1", role := "assistant", content := "X", timestamp := "t" },
                       { id := "a2", role := "assistant", content := "Y", timestamp := "t" }],
          payload := none, notices := [] } :=
  c6_invalid_regenerate_amended
    [{ id := "a1", role := "assistant", content := "X", timestamp := "t" },
     { id := "a2", role := "assistant", content := "Y", timestamp := "t" }]
    1 "a2" "9" (by decide)
    (Or.inr ⟨{ id := "a1", role := "assistant", content := "X", timestamp := "t" },
      by decide, by decide⟩)

/-- Claim C7: starting from any state in which the settings file does not
exist, the server startup creates it with the documented defaults, and GET
/api/settings then returns exactly that default object; the default has
been persisted to storage. -/
theorem c7_settings_default (st : Option Settings) (h : st = none) :
    getSettings (initSettingsFile st) = ApiResult.ok defaultSettings
      ∧ initSettingsFile st = some defaultSettings := by
  subst h
  exact ⟨rfl, rfl⟩

/-- Witness for C7 at the absent-file state. -/
theorem c7_settings_default_witness :
    getSettings (initSettingsFile none) = ApiResult.ok defaultSettings
      ∧ initSettingsFile none = some defaultSettings :=
  c7_settings_default none rfl

/-- Claim C8: editing the message at index i (the first message carrying
its id) to content X and saving the conversation, then loading it back by
id, yields that message with content exactly X and unchanged id, role and
timestamp, and every other position of the message list unchanged. -/
theorem c8_edit_then_save (dir : ChatsDir) (cid title now X : String)
    (msgs : List Msg) (i : Nat) (m : Msg) (hcid : cid ≠ "")
    (hfind : msgs.findIdx? (fun x => x.id = m.id) = some i)
    (hget : msgs[i]? = some m) :
    saveCurrentChat (some cid) title (saveEditedMessage msgs m.id X)
        = some { id := some cid, title := some (jsOr title "New Chat"),
                 messages := some (msgs.set i { m with content := X }) }
      ∧ getChat (postChat dir now
            { id := some cid, title := some (jsOr title "New Chat"),
              messages := some (msgs.set i { m with content := X }) }).1 cid
        = ApiResult.ok
            { id := cid, title := jsOr title "New Chat", timestamp := now,
              messages := msgs.set i { m with content := X } }
      ∧ (msgs.set i { m with content := X })[i]? = some { m with content := X }
      ∧ ∀ j, j ≠ i → (msgs.set i { m with content := X })[j]? = msgs[j]? := by
  have hlt : i < msgs.length := by
    rcases List.getElem?_eq_some.mp hget with ⟨hl, _⟩
    exact hl
  have hedit : saveEditedMessage msgs m.id X = msgs.set i { m with content := X } := by
    simp [saveEditedMessage, hfind, hget]
  have hne : msgs ≠ [] := by
    intro hnil
    subst hnil
    simp at hlt
  refine ⟨?_, ?_, ?_, ?_⟩
  · rw [hedit]
    simp [saveCurrentChat, strFalsy, hcid, hne]
  · simp [postChat, strFalsy, hcid, jsOr_ne_empty title "New Chat" (by decide),
      getChat, dirLookup_dirWrite]
  · exact List.getElem?_set_self hlt
  · intro j hj
    exact List.getElem?_set_ne (Ne.symm hj)

/-- Witness for C8 at a concrete two-message conversation, with the frame
conjunct applied at the untouched index. -/
theorem c8_edit_then_save_witness :
    saveCurrentChat (some "c2") "" (saveEditedMessage
        [{ id := "e1", role := "user", content := "old", timestamp := "t0" },
         { id := "e2", role := "assistant", content := "keep", timestamp := "t1" }] "e1" "new")
        = some { id := some "c2", title := some (jsOr "" "New Chat"),
                 messages := some (([{ id := "e1", role := "user", content := "old", timestamp := "t0" },
                     { id := "e2", role := "assistant", content := "keep", timestamp := "t1" }] : List Msg).set 0
                   { id := "e1", role := "user", content := "new", timestamp := "t0" }) }
      ∧ getChat (postChat [] "t9"
            { id := some "c2", title := some (jsOr "" "New Chat"),
              messages := some (([{ id := "e1", role := "user", content := "old", timestamp := "t0" },
                  { id := "e2", role := "assistant", content := "keep", timestamp := "t1" }] : List Msg).set 0
                { id := "e1", role := "user", content := "new", timestamp := "t0" }) }).1 "c2"
        = ApiResult.ok
            { id := "c2", title := jsOr "" "New Chat", timestamp := "t9",
              messages := ([{ id := "e1", role := "user", content := "old", timestamp := "t0" },
                  { id := "e2", role := "assistant", content := "keep", timestamp := "t1" }] : List Msg).set 0
                { id := "e1", role := "user", content := "new", timestamp := "t0" } }
      ∧ (([{ id := "e1", role := "user", content := "old", timestamp := "t0" },
           { id := "e2", role := "assistant", content := "keep", timestamp := "t1" }] : List Msg).set 0
          { id := "e1", role := "user", content := "new", timestamp := "t0" })[0]?
        = some { id := "e1", role := "user", content := "new", timestamp := "t0" }
      ∧ (([{ id := "e1", role := "user", content := "old", timestamp := "t0" },
           { id := "e2", role := "assistant", content := "keep", timestamp := "t1" }] : List Msg).set 0
          { id := "e1", role := "user", content := "new", timestamp := "t0" })[1]?
        = ([{ id := "e1", role := "user", content := "old", timestamp := "t0" },
            { id := "e2", role := "assistant", content := "keep", timestamp := "t1" }] : List Msg)[1]? := by
  have h := c8_edit_then_save [] "c2" "" "t9" "new"
    [{ id := "e1", role := "user", content := "old", timestamp := "t0" },
     { id := "e2", role := "assistant", content := "keep", timestamp := "t1" }]
    0 { id := "e1", role := "user", content := "old", timestamp := "t0" }
    (by decide) (by decide) (by decide)
  exact ⟨h.1, h.2.1, h.2.2.1, h.2.2.2 1 (by decide)⟩

/-- Claim C9, as stated, is false at a concrete input: loadChat of the
legacy client appends its two sample messages with clock-generated ids, and
when the two Date.now readings fall in the same millisecond both messages
receive the same id, so the resulting list does not have pairwise-distinct
ids. -/
theorem c9_duplicate_id_counterexample :
    ((loadChatLegacy "0" "0").map Msg.id) = ["msg-0", "msg-0"]
      ∧ ¬ ((loadChatLegacy "0" "0").map Msg.id).Nodup := by
  decide

/-- Claim C9, amended: appending a message preserves pairwise-distinct ids
exactly under the unchecked side condition that the id assigned to the new
message (the explicit messageId, or msg- followed by the clock reading when
it is absent or empty) does not already occur in the list; nothing in the
code enforces that condition, and clock-generated ids violate it whenever
two appends share a millisecond. -/
theorem c9_unique_ids_amended (msgs : List Msg) (role content : String)
    (messageId : Option String) (now : String)
    (hnodup : (msgs.map Msg.id).Nodup)
    (hfresh : jsOrOpt messageId ("msg-" ++ now) ∉ msgs.map Msg.id) :
    ((addMessageToChat msgs role content messageId now).map Msg.id).Nodup := by
  simp only [addMessageToChat, List.map_append, List.map_cons, List.map_nil]
  rw [List.nodup_append]
  refine ⟨hnodup, List.nodup_singleton _, ?_⟩
  intro a ha hb
  simp only [List.mem_singleton] at hb
  subst hb
  exact hfresh ha

/-- Witness for the amended C9 at a concrete append. -/
theorem c9_unique_ids_amended_witness :
    ((addMessageToChat [{ id := "msg-1", role := "user", content := "a", timestamp := "1" }]
        "assistant" "b" none "2").map Msg.id).Nodup :=
  c9_unique_ids_amended [{ id := "msg-1", role := "user", content := "a", timestamp := "1" }]
    "assistant" "b" none "2" (by decide) (by decide)

/-- Claim C10: when the current chat id is null or the in-memory message
list is empty, saveCurrentChat returns before issuing any request, so no
conversation file is created or modified for an empty conversation. -/
theorem c10_empty_save_skipped (currentChatId : Option String) (title : String)
    (msgs : List Msg) (h : currentChatId = none ∨ msgs = []) :
    saveCurrentChat currentChatId title msgs = none := by
  rcases h with h | h <;> simp [saveCurrentChat, strFalsy, h]

/-- Witness for C10 with a null chat id and a non-empty list. -/
theorem c10_empty_save_skipped_witness :
    saveCurrentChat none "T" [{ id := "m", role := "user", content := "x", timestamp := "t" }]
      = none :=
  c10_empty_save_skipped none "T"
    [{ id := "m", role := "user", content := "x", timestamp := "t" }] (Or.inl rfl)

end LocalChat
